import Mathlib

/-!
Shallow embedding of `drawer.py` (ShapeDrawer): a scene parser that resolves
color tokens through a palette, builds shape objects from figure
dictionaries, and renders them in order onto a drawing surface.

Python values that can sit in a color slot are modelled by `PyVal`
(a string, an (r, g, b) tuple produced by `_parse_color`, or `None`);
Python exceptions are modelled by the `PyErr` error type of an `Except`
computation.
-/

/-- Python exceptions that the parsing pipeline of `drawer.py` can raise. -/
inductive PyErr
  | keyError (k : String)
  | valueError
  | attributeError
  | typeError
deriving DecidableEq, Repr

/-- Python values that can occupy a color position in `drawer.py`:
a string (raw token or hex color), an integer triple produced by
`_parse_color`, or `None`. -/
inductive PyVal
  | str (s : String)
  | tup (r g b : Nat)
  | none
deriving DecidableEq, Repr

deriving instance DecidableEq for Except

/-- Python `s.startswith(c)` for a single-character c. -/
def strStartsWith (s : String) (c : Char) : Bool :=
  match s.data with
  | [] => false
  | d :: _ => d == c

/-- Helper for `digitRuns`: scans the remaining characters, carrying the
(reversed) current run of digits. -/
def digitRunsAux : List Char → List Char → List (List Char)
  | [], acc => if acc.isEmpty then [] else [acc.reverse]
  | c :: cs, acc =>
      if c.isDigit then digitRunsAux cs (c :: acc)
      else if acc.isEmpty then digitRunsAux cs []
      else acc.reverse :: digitRunsAux cs []

/-- All maximal runs of decimal digits in a character list, in order:
`re.findall` with pattern `[0-9]+` from `_parse_color`. -/
def digitRuns (s : List Char) : List (List Char) :=
  digitRunsAux s []

/-- Python `int(r)` on a run of decimal digits. -/
def natOfRun (cs : List Char) : Nat :=
  cs.foldl (fun n c => 10 * n + (c.toNat - 48)) 0

/-- `FileParser._parse_color`: a string starting with `#` is returned
verbatim; a string starting with `(` is unpacked as exactly three digit
runs (Python tuple unpacking raises `ValueError` when the number of runs
is not 3); any other string yields `None`. A non-string argument raises
`AttributeError` (`startswith` is not defined on tuples or `None`). -/
def parse_color : PyVal → Except PyErr PyVal
  | .str s =>
      if strStartsWith s ('#') then .ok (.str s)
      else if strStartsWith s ('(') then
        match digitRuns s.data with
        | [r, g, b] => .ok (.tup (natOfRun r) (natOfRun g) (natOfRun b))
        | _ => .error .valueError
      else .ok PyVal.none
  | _ => .error .attributeError

/-- First-match association lookup, modelling Python `dict` access on the
string-keyed palette (keys are unique in a Python dict). -/
def assocGet : List (String × PyVal) → String → Option PyVal
  | [], _ => Option.none
  | (k, v) :: rest, s => if k = s then some v else assocGet rest s

/-- Python `palette.get(key, default)` restricted to the cases that occur:
a string key is looked up; a tuple or `None` key is never a key of the
string-keyed palette, so the default is returned. -/
def dictGet? (pal : List (String × PyVal)) : PyVal → Option PyVal
  | .str s => assocGet pal s
  | _ => Option.none

/-- `self.color_palette.get(tok, FileParser._parse_color(tok))` as performed
at every color-resolution site of `drawer.py`: Python evaluates the default
argument eagerly, so `_parse_color` runs (and can raise) before the lookup;
when it returns, a palette hit takes precedence over the parsed literal. -/
def resolve_color (pal : List (String × PyVal)) (tok : PyVal) : Except PyErr PyVal :=
  match parse_color tok with
  | .error e => .error e
  | .ok lit => .ok (Option.getD (dictGet? pal tok) lit)

/-- The fully constructed shape objects of `drawer.py`. A `Square` instance
is a `Rectangle` instance with `height = width = size` (its `__init__`
delegates to `Rectangle.__init__` and it adds no fields or methods), so it
is represented by the `rect` variant. -/
inductive Shape
  | point (x y : Int) (color : PyVal)
  | circle (x y radius : Int) (color : PyVal)
  | rect (x y height width : Int) (color : PyVal)
  | polygon (points : List (Int × Int)) (color : PyVal)
deriving DecidableEq, Repr

/-- The `color` attribute stored by `AbstractShape.__init__`. -/
def Shape.color : Shape → PyVal
  | .point _ _ c => c
  | .circle _ _ _ c => c
  | .rect _ _ _ _ c => c
  | .polygon _ c => c

/-- `Point.__init__`. -/
def Point_init (x y : Int) (color : PyVal) : Shape :=
  .point x y color

/-- `Circle.__init__`. -/
def Circle_init (x y radius : Int) (color : PyVal) : Shape :=
  .circle x y radius color

/-- `Rectangle.__init__`. -/
def Rectangle_init (x y height width : Int) (color : PyVal) : Shape :=
  .rect x y height width color

/-- `Square.__init__`: delegates to `Rectangle.__init__` with
`height = width = size`. -/
def Square_init (x y size : Int) (color : PyVal) : Shape :=
  Rectangle_init x y size size color

/-- `Polygon.__init__`. -/
def Polygon_init (points : List (Int × Int)) (color : PyVal) : Shape :=
  .polygon points color

/-- One call on the external drawing surface, as issued by the `draw`
methods: `surface.point`, `surface.ellipse`, `surface.rectangle` or
`surface.polygon`, each with its positional geometry and its `fill`. -/
inductive DrawCall
  | point (xy : Int × Int) (fill : PyVal)
  | ellipse (box : Int × Int × Int × Int) (fill : PyVal)
  | rectangle (box : Int × Int × Int × Int) (fill : PyVal)
  | polygon (xys : List Int) (fill : PyVal)
deriving DecidableEq, Repr

/-- The `fill` argument of a drawing-surface call. -/
def DrawCall.fill : DrawCall → PyVal
  | .point _ c => c
  | .ellipse _ c => c
  | .rectangle _ c => c
  | .polygon _ c => c

/-- `list(chain(*points))` from `Polygon.draw`: flattens coordinate pairs
into an alternating x, y stream. -/
def flattenPts : List (Int × Int) → List Int
  | [] => []
  | (a, b) :: rest => a :: b :: flattenPts rest

/-- The `draw` methods of the four concrete shape classes. Python `//` is
floor division, `Int.fdiv`. -/
def Shape.draw : Shape → DrawCall
  | .point x y c => .point (x, y) c
  | .circle x y r c => .ellipse (x - r, y - r, x + r, y + r) c
  | .rect x y h w c =>
      .rectangle (x - Int.fdiv w 2, y - Int.fdiv h 2,
                  x + Int.fdiv w 2, y + Int.fdiv h 2) c
  | .polygon pts c => .polygon (flattenPts pts) c

/-- One raw figure dictionary from the `Figures` array, as a record of the
recognized keys (each optional) plus the list of any other keys present
(`extra`; Python dict keys are unique and distinct from the recognized
ones). `color?` holds a `PyVal` because `_parse_figure` overwrites the
entry's `color` key with the resolved value; a raw input dictionary holds
`PyVal.str` tokens there. -/
structure FigDict where
  type? : Option String := Option.none
  x? : Option Int := Option.none
  y? : Option Int := Option.none
  radius? : Option Int := Option.none
  height? : Option Int := Option.none
  width? : Option Int := Option.none
  size? : Option Int := Option.none
  points? : Option (List (Int × Int)) := Option.none
  color? : Option PyVal := Option.none
  extra : List String := []
deriving DecidableEq, Repr

/-- The five keys of `FileParser._FIGURE_CONSTRUCTORS`. -/
inductive FigTag
  | point
  | circle
  | square
  | rectangle
  | polygon
deriving DecidableEq, Repr

/-- `FileParser._FIGURE_CONSTRUCTORS[figure_type]`: selects the shape
class; a `KeyError` carrying the unknown type name is raised when the
type is not one of the five recognized names. -/
def constructorFor : String → Except PyErr FigTag
  | "point" => .ok .point
  | "circle" => .ok .circle
  | "square" => .ok .square
  | "rectangle" => .ok .rectangle
  | "polygon" => .ok .polygon
  | t => .error (.keyError t)

/-- `constructor(**figure_dict)`: Python keyword-argument binding succeeds
exactly when the dictionary's keys (geometry keys plus the always-present
`color`) coincide with the constructor's parameters; a missing required
parameter or an unexpected key raises `TypeError`. On success the
corresponding `__init__` runs. -/
def construct (tag : FigTag) (d : FigDict) (c : PyVal) : Except PyErr Shape :=
  match tag, d.x?, d.y?, d.radius?, d.height?, d.width?, d.size?, d.points?, d.extra with
  | .point, some x, some y, Option.none, Option.none, Option.none, Option.none, Option.none, [] =>
      .ok (Point_init x y c)
  | .circle, some x, some y, some r, Option.none, Option.none, Option.none, Option.none, [] =>
      .ok (Circle_init x y r c)
  | .square, some x, some y, Option.none, Option.none, Option.none, some s, Option.none, [] =>
      .ok (Square_init x y s c)
  | .rectangle, some x, some y, Option.none, some h, some w, Option.none, Option.none, [] =>
      .ok (Rectangle_init x y h w c)
  | .polygon, Option.none, Option.none, Option.none, Option.none, Option.none, Option.none, some ps, [] =>
      .ok (Polygon_init ps c)
  | _, _, _, _, _, _, _, _, _ => .error .typeError

/-- `FileParser._parse_figure`, including its mutations of the figure
dictionary: `pop` of the `type` key (raising `KeyError` when absent), the eager
palette-or-literal resolution of the `color` entry (defaulting to the
already-resolved screen `fg_color`), the write-back of the resolved color,
the constructor lookup, and the keyword-argument call. Returns the
constructed shape together with the dictionary as left mutated. -/
def parse_figure (pal : List (String × PyVal)) (fg : PyVal) (d : FigDict) :
    Except PyErr (Shape × FigDict) :=
  match d.type? with
  | Option.none => .error (.keyError ("type"))
  | some t =>
      match resolve_color pal (Option.getD d.color? fg) with
      | .error e => .error e
      | .ok c =>
          let d2 : FigDict := { d with type? := Option.none, color? := some c }
          match constructorFor t with
          | .error e => .error e
          | .ok tag =>
              match construct tag d2 c with
              | .error e => .error e
              | .ok sh => .ok (sh, d2)

/-- Sequential left-to-right effectful map, as performed by the list
comprehension `[self._parse_figure(figure_dict) for figure_dict in raw_figures]`:
the first raised exception aborts the whole comprehension. -/
def exceptMapM (f : α → Except PyErr β) : List α → Except PyErr (List β)
  | [] => .ok []
  | a :: as =>
      match f a with
      | .error e => .error e
      | .ok b =>
          match exceptMapM f as with
          | .error e => .error e
          | .ok bs => .ok (b :: bs)

/-- The `Screen` section of the input: `width`, `height`, and the two color
slots, which hold raw string tokens before parsing and resolved values
after `FileParser.__init__` overwrites them. -/
structure ScreenParams where
  width : Int
  height : Int
  bg_color : PyVal
  fg_color : PyVal
deriving DecidableEq, Repr

/-- A raw scene, the JSON value loaded from the input file: the optional
`Palette` section (name to raw token), the `Screen` section and the
ordered `Figures` array. -/
structure Scene where
  palette : List (String × PyVal)
  screen : ScreenParams
  figures : List FigDict
deriving DecidableEq, Repr

/-- The state of a `FileParser` after `__init__`: the resolved palette,
the `Screen` dictionary with `bg_color` and `fg_color` overwritten, the
constructed shape list, and the figure dictionaries as left mutated in
the raw data. -/
structure ParseResult where
  color_palette : List (String × PyVal)
  screen_parameters : ScreenParams
  shapes : List Shape
  postFigures : List FigDict
deriving DecidableEq, Repr

/-- The loop in `FileParser.__init__` that replaces every palette value by
`_parse_color(value)`, in insertion order, keys unchanged. -/
def parsePaletteVals : List (String × PyVal) → Except PyErr (List (String × PyVal))
  | [] => .ok []
  | (n, v) :: rest =>
      match parse_color v with
      | .error e => .error e
      | .ok c =>
          match parsePaletteVals rest with
          | .error e => .error e
          | .ok r => .ok ((n, c) :: r)

/-- `FileParser.__init__` on loaded JSON data: parse the palette values,
overwrite the screen's `bg_color` and then `fg_color` with their
palette-or-literal resolutions, then parse every figure in order. -/
def parseFile (sc : Scene) : Except PyErr ParseResult :=
  match parsePaletteVals sc.palette with
  | .error e => .error e
  | .ok pal =>
      match resolve_color pal sc.screen.bg_color with
      | .error e => .error e
      | .ok bg =>
          match resolve_color pal sc.screen.fg_color with
          | .error e => .error e
          | .ok fg =>
              match exceptMapM (parse_figure pal fg) sc.figures with
              | .error e => .error e
              | .ok pairs =>
                  .ok { color_palette := pal,
                        screen_parameters :=
                          { sc.screen with bg_color := bg, fg_color := fg },
                        shapes := pairs.map Prod.fst,
                        postFigures := pairs.map Prod.snd }

/-- The `main` pipeline up to the drawing-surface boundary: parse the
whole file, then issue each shape's drawing call in list order. Any
exception aborts before a single call is issued. -/
def runMain (sc : Scene) : Except PyErr (List DrawCall) :=
  match parseFile sc with
  | .error e => .error e
  | .ok fp => .ok (fp.shapes.map Shape.draw)

/-- Whether an `Except` computation succeeded. -/
def isOkE : Except PyErr α → Bool
  | .ok _ => true
  | .error _ => false

/-- Effect of one drawing-surface call on a surface (a pixel-to-color map),
relative to an arbitrary coverage relation `cov` telling which pixels the
external rasterizer writes for a given call: covered pixels take the
call's fill, all others keep their previous color. -/
def applyCall (cov : DrawCall → Int × Int → Bool) (surf : Int × Int → PyVal)
    (c : DrawCall) : Int × Int → PyVal :=
  fun p => if cov c p then DrawCall.fill c else surf p

/-- Sequential application of a list of drawing calls to a surface, in
list order (the draw loop of `main`). -/
def renderAll (cov : DrawCall → Int × Int → Bool) (surf : Int × Int → PyVal) :
    List DrawCall → (Int × Int → PyVal)
  | [] => surf
  | c :: rest => renderAll cov (applyCall cov surf c) rest

/-- Modelled from the spec wording of the Rectangle claim: the
filled-rectangle call with corners computed by TRUNCATING integer
division (`Int.tdiv`), to be compared against what `Rectangle.draw`
actually issues (Python `//`, floor division). -/
def rectClaimedCall (x y h w : Int) (c : PyVal) : DrawCall :=
  .rectangle (x - Int.tdiv w 2, y - Int.tdiv h 2,
              x + Int.tdiv w 2, y + Int.tdiv h 2) c

/-- Modelled from the spec: the required geometry parameter names of each
shape variant (besides `color`), in the fixed key order used by
`presentFields`. -/
def requiredFields : FigTag → List String
  | .point => ["x", "y"]
  | .circle => ["x", "y", "radius"]
  | .square => ["x", "y", "size"]
  | .rectangle => ["x", "y", "height", "width"]
  | .polygon => ["points"]

/-- Emits a key name when the corresponding optional field is populated. -/
def optField (n : String) : Option α → List String
  | Option.none => []
  | some _ => [n]

/-- The geometry keys present in a figure dictionary (ignoring `type` and
`color`), in a fixed canonical order, followed by the unrecognized keys. -/
def presentFields (d : FigDict) : List String :=
  optField ("x") d.x? ++ (optField ("y") d.y? ++ (optField ("radius") d.radius? ++
  (optField ("height") d.height? ++ (optField ("width") d.width? ++
  (optField ("size") d.size? ++ (optField ("points") d.points? ++ d.extra))))))

/-- The seven recognized geometry key names. A figure dictionary is
faithfully represented only when its `extra` list avoids these names
(a real Python dict stores a recognized key in the corresponding field). -/
def geomKeys : List String := ["x", "y", "radius", "height", "width", "size", "points"]

/-- The five recognized figure type names. -/
def figureTypeNames : List String := ["point", "circle", "square", "rectangle", "polygon"]

/-- A concrete scene whose single figure has the unrecognized type
`triangle`. -/
def sceneTri : Scene :=
  { palette := [],
    screen := { width := 10, height := 10, bg_color := PyVal.str ("#000000"),
                fg_color := PyVal.str ("#FFFFFF") },
    figures := [{ type? := some ("triangle"), x? := some 1, y? := some 2 }] }

/-- A concrete scene whose single figure has the unrecognized type
`triangle` AND a parenthesized color token with only two digit runs. -/
def sceneTriBad : Scene :=
  { palette := [],
    screen := { width := 10, height := 10, bg_color := PyVal.str ("#000000"),
                fg_color := PyVal.str ("#FFFFFF") },
    figures := [{ type? := some ("triangle"), x? := some 1, y? := some 2,
                  color? := some (PyVal.str ("(1,2)")) }] }

/-- Coverage oracle under which every call writes every pixel. -/
def covAll : DrawCall → Int × Int → Bool := fun _ _ => true

/-- A constant initial surface. -/
def blackSurf : Int × Int → PyVal := fun _ => PyVal.str ("#000000")

/-- A raw point figure without a color field. -/
def figW : FigDict := { type? := some ("point"), x? := some 5, y? := some 5 }

/-- A minimal raw scene containing `figW`. -/
def sceneW : Scene :=
  { palette := [],
    screen := { width := 10, height := 10, bg_color := PyVal.str ("#000000"),
                fg_color := PyVal.str ("#FFFFFF") },
    figures := [figW] }

/-- The parser state `parseFile` produces from `sceneW`. -/
def resW : ParseResult :=
  { color_palette := [],
    screen_parameters := { width := 10, height := 10, bg_color := PyVal.str ("#000000"),
                           fg_color := PyVal.str ("#FFFFFF") },
    shapes := [Shape.point 5 5 (PyVal.str ("#FFFFFF"))],
    postFigures := [{ x? := some 5, y? := some 5,
                      color? := some (PyVal.str ("#FFFFFF")) }] }

example : parse_color (PyVal.str ("#FF0000")) = .ok (PyVal.str ("#FF0000")) := by decide

example : parse_color (PyVal.str ("(255, 0, 12)")) = .ok (PyVal.tup 255 0 12) := by decide

example : parse_color (PyVal.str ("red2")) = .ok PyVal.none := by decide

example : parse_color (PyVal.tup 1 2 3) = .error .attributeError := by decide

example :
    parse_figure [] (PyVal.str ("#FFFFFF"))
      { type? := some ("point"), x? := some 5, y? := some 5 } =
      .ok (Shape.point 5 5 (PyVal.str ("#FFFFFF")),
           { x? := some 5, y? := some 5,
             color? := some (PyVal.str ("#FFFFFF")) }) := by decide

example :
    parse_figure [] (PyVal.str ("#FFFFFF"))
      { type? := some ("triangle"), x? := some 5, y? := some 5 } =
      .error (.keyError ("triangle")) := by decide

example :
    parse_figure [] (PyVal.str ("#FFFFFF"))
      { type? := some ("circle"), x? := some 5, y? := some 5 } =
      .error .typeError := by decide

theorem mem_optField {α : Type} {a n : String} {o : Option α}
    (h : a ∈ optField n o) : a = n ∧ o.isSome = true := by
  cases o
  · simp [optField] at h
  · simp [optField] at h
    exact ⟨h, rfl⟩

theorem self_mem_optField {α : Type} {n : String} {o : Option α}
    (h : o.isSome = true) : n ∈ optField n o := by
  cases o
  · simp at h
  · simp [optField]

theorem mem_presentFields {a : String} {d : FigDict} (h : a ∈ presentFields d) :
    (a = "x" ∧ d.x?.isSome = true) ∨ (a = "y" ∧ d.y?.isSome = true) ∨
    (a = "radius" ∧ d.radius?.isSome = true) ∨ (a = "height" ∧ d.height?.isSome = true) ∨
    (a = "width" ∧ d.width?.isSome = true) ∨ (a = "size" ∧ d.size?.isSome = true) ∨
    (a = "points" ∧ d.points?.isSome = true) ∨ a ∈ d.extra := by
  unfold presentFields at h
  rcases List.mem_append.mp h with h1 | h
  · exact Or.inl (mem_optField h1)
  rcases List.mem_append.mp h with h1 | h
  · exact Or.inr (Or.inl (mem_optField h1))
  rcases List.mem_append.mp h with h1 | h
  · exact Or.inr (Or.inr (Or.inl (mem_optField h1)))
  rcases List.mem_append.mp h with h1 | h
  · exact Or.inr (Or.inr (Or.inr (Or.inl (mem_optField h1))))
  rcases List.mem_append.mp h with h1 | h
  · exact Or.inr (Or.inr (Or.inr (Or.inr (Or.inl (mem_optField h1)))))
  rcases List.mem_append.mp h with h1 | h
  · exact Or.inr (Or.inr (Or.inr (Or.inr (Or.inr (Or.inl (mem_optField h1))))))
  rcases List.mem_append.mp h with h1 | h
  · exact Or.inr (Or.inr (Or.inr (Or.inr (Or.inr (Or.inr (Or.inl (mem_optField h1)))))))
  · exact Or.inr (Or.inr (Or.inr (Or.inr (Or.inr (Or.inr (Or.inr h))))))

theorem x_mem_presentFields {d : FigDict} (h : d.x?.isSome = true) :
    ("x") ∈ presentFields d := by
  unfold presentFields
  exact List.mem_append.mpr (Or.inl (self_mem_optField h))

theorem y_mem_presentFields {d : FigDict} (h : d.y?.isSome = true) :
    ("y") ∈ presentFields d := by
  unfold presentFields
  exact List.mem_append.mpr (Or.inr (List.mem_append.mpr (Or.inl (self_mem_optField h))))

theorem radius_mem_presentFields {d : FigDict} (h : d.radius?.isSome = true) :
    ("radius") ∈ presentFields d := by
  unfold presentFields
  exact List.mem_append.mpr (Or.inr (List.mem_append.mpr (Or.inr
    (List.mem_append.mpr (Or.inl (self_mem_optField h))))))

theorem height_mem_presentFields {d : FigDict} (h : d.height?.isSome = true) :
    ("height") ∈ presentFields d := by
  unfold presentFields
  exact List.mem_append.mpr (Or.inr (List.mem_append.mpr (Or.inr
    (List.mem_append.mpr (Or.inr (List.mem_append.mpr (Or.inl (self_mem_optField h))))))))

theorem width_mem_presentFields {d : FigDict} (h : d.width?.isSome = true) :
    ("width") ∈ presentFields d := by
  unfold presentFields
  exact List.mem_append.mpr (Or.inr (List.mem_append.mpr (Or.inr
    (List.mem_append.mpr (Or.inr (List.mem_append.mpr (Or.inr
      (List.mem_append.mpr (Or.inl (self_mem_optField h))))))))))

theorem size_mem_presentFields {d : FigDict} (h : d.size?.isSome = true) :
    ("size") ∈ presentFields d := by
  unfold presentFields
  exact List.mem_append.mpr (Or.inr (List.mem_append.mpr (Or.inr
    (List.mem_append.mpr (Or.inr (List.mem_append.mpr (Or.inr
      (List.mem_append.mpr (Or.inr (List.mem_append.mpr (Or.inl
        (self_mem_optField h))))))))))))

theorem points_mem_presentFields {d : FigDict} (h : d.points?.isSome = true) :
    ("points") ∈ presentFields d := by
  unfold presentFields
  exact List.mem_append.mpr (Or.inr (List.mem_append.mpr (Or.inr
    (List.mem_append.mpr (Or.inr (List.mem_append.mpr (Or.inr
      (List.mem_append.mpr (Or.inr (List.mem_append.mpr (Or.inr
        (List.mem_append.mpr (Or.inl (self_mem_optField h))))))))))))))

theorem extra_mem_presentFields {d : FigDict} {n : String} (h : n ∈ d.extra) :
    n ∈ presentFields d := by
  unfold presentFields
  exact List.mem_append.mpr (Or.inr (List.mem_append.mpr (Or.inr
    (List.mem_append.mpr (Or.inr (List.mem_append.mpr (Or.inr
      (List.mem_append.mpr (Or.inr (List.mem_append.mpr (Or.inr
        (List.mem_append.mpr (Or.inr h)))))))))))))

theorem opt_eq_none_of_not_mem {α : Type} (o : Option α) (L : List String) (n : String)
    (hn : ¬ n ∈ L) (hs : o.isSome = true → n ∈ L) : o = Option.none := by
  cases o
  · rfl
  · exact absurd (hs rfl) hn

theorem required_subset_geomKeys (tag : FigTag) {a : String}
    (h : a ∈ requiredFields tag) : a ∈ geomKeys := by
  cases tag <;> simp [requiredFields, geomKeys] at h ⊢ <;> tauto

theorem key_isSome_of_mem_x {d : FigDict} (hwf : ∀ n ∈ d.extra, ¬ n ∈ geomKeys)
    (h : ("x") ∈ presentFields d) : d.x?.isSome = true := by
  rcases mem_presentFields h with h1 | h1 | h1 | h1 | h1 | h1 | h1 | h1
  all_goals first
    | exact h1.2
    | exact absurd h1.1 (by decide)
    | exact absurd (show ("x") ∈ geomKeys by decide) (hwf _ h1)

theorem key_isSome_of_mem_y {d : FigDict} (hwf : ∀ n ∈ d.extra, ¬ n ∈ geomKeys)
    (h : ("y") ∈ presentFields d) : d.y?.isSome = true := by
  rcases mem_presentFields h with h1 | h1 | h1 | h1 | h1 | h1 | h1 | h1
  all_goals first
    | exact h1.2
    | exact absurd h1.1 (by decide)
    | exact absurd (show ("y") ∈ geomKeys by decide) (hwf _ h1)

theorem key_isSome_of_mem_radius {d : FigDict} (hwf : ∀ n ∈ d.extra, ¬ n ∈ geomKeys)
    (h : ("radius") ∈ presentFields d) : d.radius?.isSome = true := by
  rcases mem_presentFields h with h1 | h1 | h1 | h1 | h1 | h1 | h1 | h1
  all_goals first
    | exact h1.2
    | exact absurd h1.1 (by decide)
    | exact absurd (show ("radius") ∈ geomKeys by decide) (hwf _ h1)

theorem key_isSome_of_mem_height {d : FigDict} (hwf : ∀ n ∈ d.extra, ¬ n ∈ geomKeys)
    (h : ("height") ∈ presentFields d) : d.height?.isSome = true := by
  rcases mem_presentFields h with h1 | h1 | h1 | h1 | h1 | h1 | h1 | h1
  all_goals first
    | exact h1.2
    | exact absurd h1.1 (by decide)
    | exact absurd (show ("height") ∈ geomKeys by decide) (hwf _ h1)

theorem key_isSome_of_mem_width {d : FigDict} (hwf : ∀ n ∈ d.extra, ¬ n ∈ geomKeys)
    (h : ("width") ∈ presentFields d) : d.width?.isSome = true := by
  rcases mem_presentFields h with h1 | h1 | h1 | h1 | h1 | h1 | h1 | h1
  all_goals first
    | exact h1.2
    | exact absurd h1.1 (by decide)
    | exact absurd (show ("width") ∈ geomKeys by decide) (hwf _ h1)

theorem key_isSome_of_mem_size {d : FigDict} (hwf : ∀ n ∈ d.extra, ¬ n ∈ geomKeys)
    (h : ("size") ∈ presentFields d) : d.size?.isSome = true := by
  rcases mem_presentFields h with h1 | h1 | h1 | h1 | h1 | h1 | h1 | h1
  all_goals first
    | exact h1.2
    | exact absurd h1.1 (by decide)
    | exact absurd (show ("size") ∈ geomKeys by decide) (hwf _ h1)

theorem key_isSome_of_mem_points {d : FigDict} (hwf : ∀ n ∈ d.extra, ¬ n ∈ geomKeys)
    (h : ("points") ∈ presentFields d) : d.points?.isSome = true := by
  rcases mem_presentFields h with h1 | h1 | h1 | h1 | h1 | h1 | h1 | h1
  all_goals first
    | exact h1.2
    | exact absurd h1.1 (by decide)
    | exact absurd (show ("points") ∈ geomKeys by decide) (hwf _ h1)

theorem construct_ok_fields {tag : FigTag} {d : FigDict} {c : PyVal} {sh : Shape}
    (h : construct tag d c = .ok sh) :
    Shape.color sh = c ∧ presentFields d = requiredFields tag := by
  unfold construct at h
  split at h <;>
    first
      | exact Except.noConfusion h
      | (injection h with h
         subst h
         simp_all [presentFields, optField, requiredFields, Point_init, Circle_init,
           Square_init, Rectangle_init, Polygon_init, Shape.color])

theorem construct_exhaust (tag : FigTag) (d : FigDict) (c : PyVal) :
    (∃ sh, construct tag d c = .ok sh) ∨ construct tag d c = .error .typeError := by
  unfold construct
  split <;> first | exact Or.inl ⟨_, rfl⟩ | exact Or.inr rfl

theorem construct_ok_of_match (tag : FigTag) (d : FigDict) (c : PyVal)
    (hwf : ∀ n ∈ d.extra, ¬ n ∈ geomKeys)
    (hm : presentFields d = requiredFields tag) :
    ∃ sh, construct tag d c = .ok sh := by
  have hex : d.extra = [] := by
    cases hex0 : d.extra with
    | nil => rfl
    | cons a tl =>
        exfalso
        have ha : a ∈ d.extra := by rw [hex0]; exact List.mem_cons_self a tl
        have hp : a ∈ presentFields d := extra_mem_presentFields ha
        rw [hm] at hp
        exact hwf a ha (required_subset_geomKeys tag hp)
  cases tag with
  | point =>
      have hx := key_isSome_of_mem_x hwf (by rw [hm]; decide)
      have hy := key_isSome_of_mem_y hwf (by rw [hm]; decide)
      have hr := opt_eq_none_of_not_mem d.radius? (requiredFields FigTag.point) ("radius")
        (by decide) (fun hs => by rw [← hm]; exact radius_mem_presentFields hs)
      have hh := opt_eq_none_of_not_mem d.height? (requiredFields FigTag.point) ("height")
        (by decide) (fun hs => by rw [← hm]; exact height_mem_presentFields hs)
      have hw := opt_eq_none_of_not_mem d.width? (requiredFields FigTag.point) ("width")
        (by decide) (fun hs => by rw [← hm]; exact width_mem_presentFields hs)
      have hsz := opt_eq_none_of_not_mem d.size? (requiredFields FigTag.point) ("size")
        (by decide) (fun hs => by rw [← hm]; exact size_mem_presentFields hs)
      have hpt := opt_eq_none_of_not_mem d.points? (requiredFields FigTag.point) ("points")
        (by decide) (fun hs => by rw [← hm]; exact points_mem_presentFields hs)
      obtain ⟨vx, hvx⟩ := Option.isSome_iff_exists.mp hx
      obtain ⟨vy, hvy⟩ := Option.isSome_iff_exists.mp hy
      exact ⟨Point_init vx vy c, by simp [construct, hvx, hvy, hr, hh, hw, hsz, hpt, hex]⟩
  | circle =>
      have hx := key_isSome_of_mem_x hwf (by rw [hm]; decide)
      have hy := key_isSome_of_mem_y hwf (by rw [hm]; decide)
      have hrad := key_isSome_of_mem_radius hwf (by rw [hm]; decide)
      have hh := opt_eq_none_of_not_mem d.height? (requiredFields FigTag.circle) ("height")
        (by decide) (fun hs => by rw [← hm]; exact height_mem_presentFields hs)
      have hw := opt_eq_none_of_not_mem d.width? (requiredFields FigTag.circle) ("width")
        (by decide) (fun hs => by rw [← hm]; exact width_mem_presentFields hs)
      have hsz := opt_eq_none_of_not_mem d.size? (requiredFields FigTag.circle) ("size")
        (by decide) (fun hs => by rw [← hm]; exact size_mem_presentFields hs)
      have hpt := opt_eq_none_of_not_mem d.points? (requiredFields FigTag.circle) ("points")
        (by decide) (fun hs => by rw [← hm]; exact points_mem_presentFields hs)
      obtain ⟨vx, hvx⟩ := Option.isSome_iff_exists.mp hx
      obtain ⟨vy, hvy⟩ := Option.isSome_iff_exists.mp hy
      obtain ⟨vr, hvr⟩ := Option.isSome_iff_exists.mp hrad
      exact ⟨Circle_init vx vy vr c,
        by simp [construct, hvx, hvy, hvr, hh, hw, hsz, hpt, hex]⟩
  | square =>
      have hx := key_isSome_of_mem_x hwf (by rw [hm]; decide)
      have hy := key_isSome_of_mem_y hwf (by rw [hm]; decide)
      have hsiz := key_isSome_of_mem_size hwf (by rw [hm]; decide)
      have hr := opt_eq_none_of_not_mem d.radius? (requiredFields FigTag.square) ("radius")
        (by decide) (fun hs => by rw [← hm]; exact radius_mem_presentFields hs)
      have hh := opt_eq_none_of_not_mem d.height? (requiredFields FigTag.square) ("height")
        (by decide) (fun hs => by rw [← hm]; exact height_mem_presentFields hs)
      have hw := opt_eq_none_of_not_mem d.width? (requiredFields FigTag.square) ("width")
        (by decide) (fun hs => by rw [← hm]; exact width_mem_presentFields hs)
      have hpt := opt_eq_none_of_not_mem d.points? (requiredFields FigTag.square) ("points")
        (by decide) (fun hs => by rw [← hm]; exact points_mem_presentFields hs)
      obtain ⟨vx, hvx⟩ := Option.isSome_iff_exists.mp hx
      obtain ⟨vy, hvy⟩ := Option.isSome_iff_exists.mp hy
      obtain ⟨vs, hvs⟩ := Option.isSome_iff_exists.mp hsiz
      exact ⟨Square_init vx vy vs c,
        by simp [construct, hvx, hvy, hvs, hr, hh, hw, hpt, hex]⟩
  | rectangle =>
      have hx := key_isSome_of_mem_x hwf (by rw [hm]; decide)
      have hy := key_isSome_of_mem_y hwf (by rw [hm]; decide)
      have hhei := key_isSome_of_mem_height hwf (by rw [hm]; decide)
      have hwid := key_isSome_of_mem_width hwf (by rw [hm]; decide)
      have hr := opt_eq_none_of_not_mem d.radius? (requiredFields FigTag.rectangle) ("radius")
        (by decide) (fun hs => by rw [← hm]; exact radius_mem_presentFields hs)
      have hsz := opt_eq_none_of_not_mem d.size? (requiredFields FigTag.rectangle) ("size")
        (by decide) (fun hs => by rw [← hm]; exact size_mem_presentFields hs)
      have hpt := opt_eq_none_of_not_mem d.points? (requiredFields FigTag.rectangle) ("points")
        (by decide) (fun hs => by rw [← hm]; exact points_mem_presentFields hs)
      obtain ⟨vx, hvx⟩ := Option.isSome_iff_exists.mp hx
      obtain ⟨vy, hvy⟩ := Option.isSome_iff_exists.mp hy
      obtain ⟨vh, hvh⟩ := Option.isSome_iff_exists.mp hhei
      obtain ⟨vw, hvw⟩ := Option.isSome_iff_exists.mp hwid
      exact ⟨Rectangle_init vx vy vh vw c,
        by simp [construct, hvx, hvy, hvh, hvw, hr, hsz, hpt, hex]⟩
  | polygon =>
      have hpts := key_isSome_of_mem_points hwf (by rw [hm]; decide)
      have hx := opt_eq_none_of_not_mem d.x? (requiredFields FigTag.polygon) ("x")
        (by decide) (fun hs => by rw [← hm]; exact x_mem_presentFields hs)
      have hy := opt_eq_none_of_not_mem d.y? (requiredFields FigTag.polygon) ("y")
        (by decide) (fun hs => by rw [← hm]; exact y_mem_presentFields hs)
      have hr := opt_eq_none_of_not_mem d.radius? (requiredFields FigTag.polygon) ("radius")
        (by decide) (fun hs => by rw [← hm]; exact radius_mem_presentFields hs)
      have hh := opt_eq_none_of_not_mem d.height? (requiredFields FigTag.polygon) ("height")
        (by decide) (fun hs => by rw [← hm]; exact height_mem_presentFields hs)
      have hw := opt_eq_none_of_not_mem d.width? (requiredFields FigTag.polygon) ("width")
        (by decide) (fun hs => by rw [← hm]; exact width_mem_presentFields hs)
      have hsz := opt_eq_none_of_not_mem d.size? (requiredFields FigTag.polygon) ("size")
        (by decide) (fun hs => by rw [← hm]; exact size_mem_presentFields hs)
      obtain ⟨vp, hvp⟩ := Option.isSome_iff_exists.mp hpts
      exact ⟨Polygon_init vp c,
        by simp [construct, hvp, hx, hy, hr, hh, hw, hsz, hex]⟩

theorem construct_error_iff (tag : FigTag) (d : FigDict) (c : PyVal)
    (hwf : ∀ n ∈ d.extra, ¬ n ∈ geomKeys) :
    construct tag d c = .error .typeError ↔ presentFields d ≠ requiredFields tag := by
  constructor
  · intro he hne
    rcases construct_ok_of_match tag d c hwf hne with ⟨sh, hsh⟩
    rw [hsh] at he
    exact Except.noConfusion he
  · intro hne
    rcases construct_exhaust tag d c with ⟨sh, hsh⟩ | he
    · exact absurd (construct_ok_fields hsh).2 hne
    · exact he

theorem constructorFor_unknown {t : String} (h : ¬ t ∈ figureTypeNames) :
    constructorFor t = .error (.keyError t) := by
  unfold constructorFor
  split <;> simp_all [figureTypeNames]

theorem parse_figure_ok_inv {pal : List (String × PyVal)} {fg : PyVal} {d : FigDict}
    {sh : Shape} {d2 : FigDict} (h : parse_figure pal fg d = .ok (sh, d2)) :
    ∃ t tag c, d.type? = some t ∧
      resolve_color pal (Option.getD d.color? fg) = .ok c ∧
      constructorFor t = .ok tag ∧
      construct tag { d with type? := Option.none, color? := some c } c = .ok sh ∧
      d2 = { d with type? := Option.none, color? := some c } := by
  cases ht : d.type? with
  | none => simp [parse_figure, ht] at h
  | some t =>
      cases hc : resolve_color pal (Option.getD d.color? fg) with
      | error e => simp [parse_figure, ht, hc] at h
      | ok c =>
          cases hk : constructorFor t with
          | error e => simp [parse_figure, ht, hc, hk] at h
          | ok tag =>
              cases hcon : construct tag { d with type? := Option.none, color? := some c } c with
              | error e => simp [parse_figure, ht, hc, hk, hcon] at h
              | ok sh2 =>
                  simp [parse_figure, ht, hc, hk, hcon] at h
                  exact ⟨t, tag, c, rfl, rfl, hk, by rw [← h.1]; exact hcon, h.2.symm⟩

theorem parse_figure_eq_ok {pal : List (String × PyVal)} {fg : PyVal} {d : FigDict}
    {t : String} {tag : FigTag} {c : PyVal} {sh : Shape}
    (ht : d.type? = some t)
    (hc : resolve_color pal (Option.getD d.color? fg) = .ok c)
    (hk : constructorFor t = .ok tag)
    (hcon : construct tag { d with type? := Option.none, color? := some c } c = .ok sh) :
    parse_figure pal fg d = .ok (sh, { d with type? := Option.none, color? := some c }) := by
  simp [parse_figure, ht, hc, hk, hcon]

theorem parse_figure_err_color {pal : List (String × PyVal)} {fg : PyVal} {d : FigDict}
    {t : String} {e : PyErr} (ht : d.type? = some t)
    (hc : resolve_color pal (Option.getD d.color? fg) = .error e) :
    parse_figure pal fg d = .error e := by
  simp [parse_figure, ht, hc]

theorem parse_figure_err_unknown {pal : List (String × PyVal)} {fg : PyVal} {d : FigDict}
    {t : String} {c : PyVal} {e : PyErr} (ht : d.type? = some t)
    (hc : resolve_color pal (Option.getD d.color? fg) = .ok c)
    (hk : constructorFor t = .error e) :
    parse_figure pal fg d = .error e := by
  simp [parse_figure, ht, hc, hk]

theorem parse_figure_err_construct {pal : List (String × PyVal)} {fg : PyVal} {d : FigDict}
    {t : String} {tag : FigTag} {c : PyVal} (ht : d.type? = some t)
    (hc : resolve_color pal (Option.getD d.color? fg) = .ok c)
    (hk : constructorFor t = .ok tag)
    (hcon : construct tag { d with type? := Option.none, color? := some c } c = .error .typeError) :
    parse_figure pal fg d = .error .typeError := by
  simp [parse_figure, ht, hc, hk, hcon]

theorem parse_figure_not_ok_unknown {pal : List (String × PyVal)} {fg : PyVal} {d : FigDict}
    {t : String} (ht : d.type? = some t) (hk : ¬ t ∈ figureTypeNames) :
    ∀ pr, parse_figure pal fg d ≠ .ok pr := by
  intro pr h
  rcases pr with ⟨sh, d2⟩
  rcases parse_figure_ok_inv h with ⟨t2, tag, c, ht2, _, hk2, _, _⟩
  rw [ht] at ht2
  injection ht2 with ht2
  subst ht2
  rw [constructorFor_unknown hk] at hk2
  exact Except.noConfusion hk2

theorem exceptMapM_length {α β : Type} {f : α → Except PyErr β} {l : List α} {r : List β}
    (h : exceptMapM f l = .ok r) : r.length = l.length := by
  induction l generalizing r with
  | nil =>
      simp [exceptMapM] at h
      simp [← h]
  | cons a as ih =>
      cases hfa : f a with
      | error e => simp [exceptMapM, hfa] at h
      | ok b =>
          cases hrest : exceptMapM f as with
          | error e => simp [exceptMapM, hfa, hrest] at h
          | ok bs =>
              simp [exceptMapM, hfa, hrest] at h
              rw [← h]
              simp [ih hrest]

theorem exceptMapM_get? {α β : Type} {f : α → Except PyErr β} {l : List α} {r : List β}
    (h : exceptMapM f l = .ok r) (i : Nat) {a : α} (ha : l.get? i = some a) :
    ∃ b, r.get? i = some b ∧ f a = .ok b := by
  induction l generalizing r i with
  | nil => simp at ha
  | cons x as ih =>
      cases hfa : f x with
      | error e => simp [exceptMapM, hfa] at h
      | ok b =>
          cases hrest : exceptMapM f as with
          | error e => simp [exceptMapM, hfa, hrest] at h
          | ok bs =>
              simp [exceptMapM, hfa, hrest] at h
              rw [← h]
              cases i with
              | zero =>
                  rw [List.get?_cons_zero] at ha
                  injection ha with ha
                  rw [← ha]
                  exact ⟨b, rfl, hfa⟩
              | succ j =>
                  rw [List.get?_cons_succ] at ha
                  rcases ih hrest j ha with ⟨b2, hb2, hfb2⟩
                  exact ⟨b2, by rw [List.get?_cons_succ]; exact hb2, hfb2⟩

theorem exceptMapM_error_of_mem {α β : Type} {f : α → Except PyErr β} {l : List α} {a : α}
    (ha : a ∈ l) (hfa : ∀ b, f a ≠ .ok b) : ∃ e, exceptMapM f l = .error e := by
  induction l with
  | nil => cases ha
  | cons x as ih =>
      cases hfa2 : f x with
      | error e => exact ⟨e, by simp [exceptMapM, hfa2]⟩
      | ok b =>
          rcases List.mem_cons.mp ha with rfl | ha2
          · exact absurd hfa2 (hfa b)
          · rcases ih ha2 with ⟨e, he⟩
            exact ⟨e, by simp [exceptMapM, hfa2, he]⟩

theorem renderAll_append (cov : DrawCall → Int × Int → Bool) (surf : Int × Int → PyVal)
    (l1 l2 : List DrawCall) :
    renderAll cov surf (l1 ++ l2) = renderAll cov (renderAll cov surf l1) l2 := by
  induction l1 generalizing surf with
  | nil => rfl
  | cons c cs ih => simp [renderAll, ih]

theorem parseFile_ok_inv {sc : Scene} {res : ParseResult} (h : parseFile sc = .ok res) :
    ∃ pairs : List (Shape × FigDict),
      parsePaletteVals sc.palette = .ok res.color_palette ∧
      resolve_color res.color_palette sc.screen.bg_color = .ok res.screen_parameters.bg_color ∧
      resolve_color res.color_palette sc.screen.fg_color = .ok res.screen_parameters.fg_color ∧
      res.screen_parameters.width = sc.screen.width ∧
      res.screen_parameters.height = sc.screen.height ∧
      exceptMapM (parse_figure res.color_palette res.screen_parameters.fg_color) sc.figures =
        .ok pairs ∧
      res.shapes = pairs.map Prod.fst ∧
      res.postFigures = pairs.map Prod.snd := by
  cases hp : parsePaletteVals sc.palette with
  | error e => simp [parseFile, hp] at h
  | ok pal =>
      cases hb : resolve_color pal sc.screen.bg_color with
      | error e => simp [parseFile, hp, hb] at h
      | ok bg =>
          cases hf : resolve_color pal sc.screen.fg_color with
          | error e => simp [parseFile, hp, hb, hf] at h
          | ok fg =>
              cases hm : exceptMapM (parse_figure pal fg) sc.figures with
              | error e => simp [parseFile, hp, hb, hf, hm] at h
              | ok pairs =>
                  simp [parseFile, hp, hb, hf, hm] at h
                  subst h
                  exact ⟨pairs, rfl, hb, hf, rfl, rfl, hm, rfl, rfl⟩

theorem parseFile_not_ok_of_bad_figure {sc : Scene} {d : FigDict}
    (hd : d ∈ sc.figures)
    (hbad : ∀ (pal : List (String × PyVal)) (fg : PyVal) (pr : Shape × FigDict),
      parse_figure pal fg d ≠ .ok pr) :
    isOkE (parseFile sc) = false := by
  cases hp : parsePaletteVals sc.palette with
  | error e => simp [parseFile, hp, isOkE]
  | ok pal =>
      cases hb : resolve_color pal sc.screen.bg_color with
      | error e => simp [parseFile, hp, hb, isOkE]
      | ok bg =>
          cases hf : resolve_color pal sc.screen.fg_color with
          | error e => simp [parseFile, hp, hb, hf, isOkE]
          | ok fg =>
              rcases exceptMapM_error_of_mem hd (fun pr => hbad pal fg pr) with ⟨e, he⟩
              simp [parseFile, hp, hb, hf, he, isOkE]

theorem runMain_not_ok {sc : Scene} (h : isOkE (parseFile sc) = false) :
    isOkE (runMain sc) = false := by
  cases hp : parseFile sc with
  | error e => simp [runMain, hp, isOkE]
  | ok res =>
      rw [hp] at h
      simp [isOkE] at h

theorem runMain_of_parseFile {sc : Scene} {res : ParseResult}
    (h : parseFile sc = .ok res) : runMain sc = .ok (res.shapes.map Shape.draw) := by
  simp [runMain, h]

theorem renderAll_untouched {cov : DrawCall → Int × Int → Bool} {p : Int × Int}
    {l : List DrawCall} (h : ∀ c ∈ l, cov c p = false) (surf : Int × Int → PyVal) :
    renderAll cov surf l p = surf p := by
  induction l generalizing surf with
  | nil => rfl
  | cons c cs ih =>
      have hc := h c (List.mem_cons_self c cs)
      have hrest := ih (fun c2 hc2 => h c2 (List.mem_cons_of_mem c hc2))
      simp [renderAll, hrest, applyCall, hc]

theorem not_hash_of_paren {s : String} (h : strStartsWith s ('(') = true) :
    strStartsWith s ('#') = false := by
  rcases hd : s.data with _ | ⟨d, rest⟩
  · simp only [strStartsWith, hd] at h
    exact absurd h (by decide)
  · simp only [strStartsWith, hd, beq_iff_eq] at h ⊢
    subst h
    decide

/-- C1 counterexample: the token is a key of the palette, yet its
resolution raises `ValueError`, both at the `resolve_color` level and
while parsing the screen parameters of a whole scene — because Python
evaluates `_parse_color(token)` eagerly as the `.get` default, even on a
palette hit. -/
theorem c1_counterexample :
    assocGet [("(x", PyVal.str ("#FF0000"))] ("(x") = some (PyVal.str ("#FF0000")) ∧
    resolve_color [("(x", PyVal.str ("#FF0000"))] (PyVal.str ("(x")) = .error .valueError ∧
    parseFile { palette := [("(x", PyVal.str ("#FF0000"))],
                screen := { width := 10, height := 10,
                            bg_color := PyVal.str ("(x"),
                            fg_color := PyVal.str ("#FFFFFF") },
                figures := [] } = .error .valueError := by
  decide

/-- C1 (amended): the palette's concrete color is returned for every
palette-present token whose literal parse does not raise; but literal
parsing is always performed (the `.get` default is evaluated eagerly), so
any error of `_parse_color` aborts resolution even for palette keys. -/
theorem c1_palette_precedence :
    (∀ (pal : List (String × PyVal)) (s : String) (v lit : PyVal),
        assocGet pal s = some v → parse_color (PyVal.str s) = .ok lit →
        resolve_color pal (PyVal.str s) = .ok v) ∧
    (∀ (pal : List (String × PyVal)) (tok : PyVal) (e : PyErr),
        parse_color tok = .error e → resolve_color pal tok = .error e) := by
  constructor
  · intro pal s v lit hv hlit
    simp [resolve_color, hlit, dictGet?, hv]
  · intro pal tok e he
    simp [resolve_color, he]

theorem c1_witness :
    assocGet [("red", PyVal.str ("#FF0000"))] ("red") = some (PyVal.str ("#FF0000")) ∧
    resolve_color [("red", PyVal.str ("#FF0000"))] (PyVal.str ("red")) =
      .ok (PyVal.str ("#FF0000")) :=
  ⟨by decide,
   c1_palette_precedence.1 [("red", PyVal.str ("#FF0000"))] ("red")
     (PyVal.str ("#FF0000")) PyVal.none (by decide) (by decide)⟩

/-- C2 counterexample: the token `"(1, 2, 3, 4)"` contains four numeric
groups; the claim says the first three are returned and that failure
occurs exactly when fewer than 3 groups are found, but Python tuple
unpacking also fails on more than 3, raising `ValueError` here. -/
theorem c2_counterexample :
    (digitRuns (String.data ("(1, 2, 3, 4)"))).length = 4 ∧
    parse_color (PyVal.str ("(1, 2, 3, 4)")) = .error .valueError := by
  decide

/-- C2 (amended): for a token starting with `(`, the maximal decimal digit
runs are extracted in order and returned as the (r, g, b) triple when
exactly 3 runs are found; when the number of runs differs from 3 — fewer
or more — parsing fails with the unpacking-mismatch error. -/
theorem c2_tuple_parse :
    (∀ (s : String) (r g b : List Char), strStartsWith s ('(') = true →
        digitRuns s.data = [r, g, b] →
        parse_color (PyVal.str s) =
          .ok (PyVal.tup (natOfRun r) (natOfRun g) (natOfRun b))) ∧
    (∀ s : String, strStartsWith s ('(') = true → (digitRuns s.data).length ≠ 3 →
        parse_color (PyVal.str s) = .error .valueError) := by
  constructor
  · intro s r g b hp hruns
    simp [parse_color, not_hash_of_paren hp, hp, hruns]
  · intro s hp hlen
    have hh := not_hash_of_paren hp
    rcases hd : digitRuns s.data with _ | ⟨a, _ | ⟨b2, _ | ⟨c2, _ | ⟨e2, tl⟩⟩⟩⟩
    · simp [parse_color, hh, hp, hd]
    · simp [parse_color, hh, hp, hd]
    · simp [parse_color, hh, hp, hd]
    · rw [hd] at hlen
      simp at hlen
    · simp [parse_color, hh, hp, hd]

theorem c2_witness :
    strStartsWith ("(255, 0, 12)") ('(') = true ∧
    parse_color (PyVal.str ("(255, 0, 12)")) = .ok (PyVal.tup 255 0 12) :=
  ⟨by decide,
   c2_tuple_parse.1 ("(255, 0, 12)") (['2', '5', '5']) (['0']) (['1', '2'])
     (by decide) (by decide)⟩

/-- C3 counterexample: a figure with valid point geometry and no color
field fails with `AttributeError` when the screen's `fg_color` resolved to
an RGB triple (the parser re-runs `_parse_color` on the tuple, which has
no `startswith`); the identical figure with an explicit hex color
constructs fine, so the geometry was valid. -/
theorem c3_counterexample :
    parse_figure [] (PyVal.tup 255 255 255)
      { type? := some ("point"), x? := some 5, y? := some 5 } =
      .error .attributeError ∧
    parse_figure [] (PyVal.tup 255 255 255)
      { type? := some ("point"), x? := some 5, y? := some 5,
        color? := some (PyVal.str ("#000000")) } =
      .ok (Shape.point 5 5 (PyVal.str ("#000000")),
           { x? := some 5, y? := some 5,
             color? := some (PyVal.str ("#000000")) }) := by
  decide

/-- C3 (amended): a figure without a color field re-resolves the screen's
already-resolved `fg_color`. When `fg_color` is a hex string that is not a
palette key, a successfully constructed shape indeed carries `fg_color`
and it is written back into the figure dictionary; but when `fg_color`
resolved to an RGB triple or to the null sentinel, construction always
fails with `AttributeError`, regardless of the geometry fields. -/
theorem c3_default_color :
    (∀ (pal : List (String × PyVal)) (s : String) (d : FigDict) (sh : Shape) (d2 : FigDict),
        strStartsWith s ('#') = true → assocGet pal s = Option.none →
        d.color? = Option.none → parse_figure pal (PyVal.str s) d = .ok (sh, d2) →
        Shape.color sh = PyVal.str s ∧ d2.color? = some (PyVal.str s)) ∧
    (∀ (pal : List (String × PyVal)) (r g b : Nat) (d : FigDict) (t : String),
        d.type? = some t → d.color? = Option.none →
        parse_figure pal (PyVal.tup r g b) d = .error .attributeError) ∧
    (∀ (pal : List (String × PyVal)) (d : FigDict) (t : String),
        d.type? = some t → d.color? = Option.none →
        parse_figure pal PyVal.none d = .error .attributeError) := by
  refine ⟨?_, ?_, ?_⟩
  · intro pal s d sh d2 hhex hpal hnc hok
    rcases parse_figure_ok_inv hok with ⟨t, tag, c, ht, hc, hk, hcon, hd2⟩
    have hres : resolve_color pal (Option.getD d.color? (PyVal.str s)) = .ok (PyVal.str s) := by
      rw [hnc]
      simp [resolve_color, parse_color, hhex, dictGet?, hpal]
    rw [hres] at hc
    injection hc with hc
    subst hc
    exact ⟨(construct_ok_fields hcon).1, by rw [hd2]⟩
  · intro pal r g b d t ht hnc
    apply parse_figure_err_color ht
    rw [hnc]
    simp [resolve_color, parse_color]
  · intro pal d t ht hnc
    apply parse_figure_err_color ht
    rw [hnc]
    simp [resolve_color, parse_color]

theorem c3_witness :
    (Shape.color (Shape.point 5 5 (PyVal.str ("#FFFFFF"))) = PyVal.str ("#FFFFFF") ∧
     FigDict.color? { x? := some 5, y? := some 5,
                      color? := some (PyVal.str ("#FFFFFF")) } =
       some (PyVal.str ("#FFFFFF"))) ∧
    parse_figure [] (PyVal.tup 255 255 255)
      { type? := some ("point"), x? := some 5, y? := some 5 } =
      .error .attributeError ∧
    parse_figure [] PyVal.none
      { type? := some ("point"), x? := some 5, y? := some 5 } =
      .error .attributeError :=
  ⟨c3_default_color.1 [] ("#FFFFFF")
     { type? := some ("point"), x? := some 5, y? := some 5 }
     (Shape.point 5 5 (PyVal.str ("#FFFFFF")))
     { x? := some 5, y? := some 5, color? := some (PyVal.str ("#FFFFFF")) }
     (by decide) (by decide) (by decide) (by decide),
   c3_default_color.2.1 [] 255 255 255
     { type? := some ("point"), x? := some 5, y? := some 5 } ("point")
     (by decide) (by decide),
   c3_default_color.2.2 []
     { type? := some ("point"), x? := some 5, y? := some 5 } ("point")
     (by decide) (by decide)⟩

/-- C4: a token that starts with neither `#` nor `(` and is not a palette
key resolves to the null sentinel without raising, and a figure carrying
such a token is constructed with `None` as its color (written back into
the dictionary as well). -/
theorem c4_null_sentinel :
    (∀ (pal : List (String × PyVal)) (s : String),
        strStartsWith s ('#') = false → strStartsWith s ('(') = false →
        assocGet pal s = Option.none →
        resolve_color pal (PyVal.str s) = .ok PyVal.none) ∧
    (∀ (pal : List (String × PyVal)) (fg : PyVal) (s : String) (d : FigDict)
        (sh : Shape) (d2 : FigDict),
        strStartsWith s ('#') = false → strStartsWith s ('(') = false →
        assocGet pal s = Option.none → d.color? = some (PyVal.str s) →
        parse_figure pal fg d = .ok (sh, d2) →
        Shape.color sh = PyVal.none ∧ d2.color? = some PyVal.none) := by
  constructor
  · intro pal s h1 h2 h3
    simp [resolve_color, parse_color, h1, h2, dictGet?, h3]
  · intro pal fg s d sh d2 h1 h2 h3 hcol hok
    rcases parse_figure_ok_inv hok with ⟨t, tag, c, ht, hc, hk, hcon, hd2⟩
    have hres : resolve_color pal (Option.getD d.color? fg) = .ok PyVal.none := by
      rw [hcol]
      simp [resolve_color, parse_color, h1, h2, dictGet?, h3]
    rw [hres] at hc
    injection hc with hc
    subst hc
    exact ⟨(construct_ok_fields hcon).1, by rw [hd2]⟩

theorem c4_witness :
    resolve_color [] (PyVal.str ("red2")) = .ok PyVal.none ∧
    (Shape.color (Shape.point 5 5 PyVal.none) = PyVal.none ∧
     FigDict.color? { x? := some 5, y? := some 5, color? := some PyVal.none } =
       some PyVal.none) :=
  ⟨c4_null_sentinel.1 [] ("red2") (by decide) (by decide) (by decide),
   c4_null_sentinel.2 [] (PyVal.str ("#FFFFFF")) ("red2")
     { type? := some ("point"), x? := some 5, y? := some 5,
       color? := some (PyVal.str ("red2")) }
     (Shape.point 5 5 PyVal.none)
     { x? := some 5, y? := some 5, color? := some PyVal.none }
     (by decide) (by decide) (by decide) (by decide) (by decide)⟩

/-- C5 counterexample: a scene whose only Figures entry has the
unrecognized type `triangle` but also a parenthesized color token with two
digit runs. `_parse_figure` resolves the color before the constructor
lookup, so parsing fails with `ValueError` — not with the unknown-type
`KeyError` the claim promises for every such scene. -/
theorem c5_counterexample :
    parseFile sceneTriBad = .error .valueError ∧
    parseFile sceneTriBad ≠ .error (.keyError ("triangle")) := by
  decide

/-- C5 (amended): a scene containing a Figures entry of unrecognized type
always fails to parse, and `main` issues no drawing call; the failure is
the unknown-type `KeyError` whenever the entry's color token resolves
(the color is resolved before the constructor lookup), and otherwise it is
the error raised by the color resolution itself. -/
theorem c5_unknown_type :
    (∀ (pal : List (String × PyVal)) (fg : PyVal) (d : FigDict) (t : String) (c : PyVal),
        d.type? = some t → ¬ t ∈ figureTypeNames →
        resolve_color pal (Option.getD d.color? fg) = .ok c →
        parse_figure pal fg d = .error (.keyError t)) ∧
    (∀ (sc : Scene) (d : FigDict) (t : String),
        d ∈ sc.figures → d.type? = some t → ¬ t ∈ figureTypeNames →
        isOkE (parseFile sc) = false ∧ isOkE (runMain sc) = false) ∧
    (∀ (pal : List (String × PyVal)) (fg : PyVal) (d : FigDict) (t : String) (e : PyErr),
        d.type? = some t →
        resolve_color pal (Option.getD d.color? fg) = .error e →
        parse_figure pal fg d = .error e) := by
  refine ⟨?_, ?_, ?_⟩
  · intro pal fg d t c ht hun hc
    exact parse_figure_err_unknown ht hc (constructorFor_unknown hun)
  · intro sc d t hd ht hun
    have hpf := parseFile_not_ok_of_bad_figure hd
      (fun pal fg pr => parse_figure_not_ok_unknown ht hun pr)
    exact ⟨hpf, runMain_not_ok hpf⟩
  · intro pal fg d t e ht hc
    exact parse_figure_err_color ht hc

theorem c5_witness :
    parse_figure [] (PyVal.str ("#FFFFFF"))
      { type? := some ("triangle"), x? := some 1, y? := some 2 } =
      .error (.keyError ("triangle")) ∧
    (isOkE (parseFile sceneTri) = false ∧ isOkE (runMain sceneTri) = false) ∧
    parse_figure [] (PyVal.str ("#FFFFFF"))
      { type? := some ("triangle"), x? := some 1, y? := some 2,
        color? := some (PyVal.str ("(1,2)")) } =
      .error .valueError :=
  ⟨c5_unknown_type.1 [] (PyVal.str ("#FFFFFF"))
     { type? := some ("triangle"), x? := some 1, y? := some 2 } ("triangle")
     (PyVal.str ("#FFFFFF")) (by decide) (by decide) (by decide),
   c5_unknown_type.2.1 sceneTri
     { type? := some ("triangle"), x? := some 1, y? := some 2 } ("triangle")
     (by decide) (by decide) (by decide),
   c5_unknown_type.2.2 [] (PyVal.str ("#FFFFFF"))
     { type? := some ("triangle"), x? := some 1, y? := some 2,
       color? := some (PyVal.str ("(1,2)")) } ("triangle") .valueError
     (by decide) (by decide)⟩

/-- C6: for a figure of recognized type whose color resolves, construction
fails with the keyword-argument `TypeError` exactly when the geometry keys
present (after removing `type`, with `color` always supplied) do not
coincide with the variant's required parameter list — no missing field is
ever defaulted. -/
theorem c6_exact_params :
    ∀ (pal : List (String × PyVal)) (fg : PyVal) (d : FigDict) (t : String)
      (tag : FigTag) (c : PyVal),
      (∀ n ∈ d.extra, ¬ n ∈ geomKeys) →
      d.type? = some t → constructorFor t = .ok tag →
      resolve_color pal (Option.getD d.color? fg) = .ok c →
      (parse_figure pal fg d = .error .typeError ↔
        presentFields d ≠ requiredFields tag) := by
  intro pal fg d t tag c hwf ht hk hc
  have hwf2 : ∀ n ∈ ({ d with type? := Option.none, color? := some c } : FigDict).extra,
      ¬ n ∈ geomKeys := hwf
  have hpf : presentFields { d with type? := Option.none, color? := some c } =
      presentFields d := rfl
  constructor
  · intro he
    rcases construct_exhaust tag { d with type? := Option.none, color? := some c } c with
      ⟨sh, hsh⟩ | herr
    · rw [parse_figure_eq_ok ht hc hk hsh] at he
      exact Except.noConfusion he
    · have hne := (construct_error_iff tag
        { d with type? := Option.none, color? := some c } c hwf2).mp herr
      rw [hpf] at hne
      exact hne
  · intro hne
    have herr := (construct_error_iff tag
        { d with type? := Option.none, color? := some c } c hwf2).mpr
      (by rw [hpf]; exact hne)
    exact parse_figure_err_construct ht hc hk herr

theorem c6_witness :
    parse_figure [] (PyVal.str ("#FFFFFF"))
      { type? := some ("circle"), x? := some 5, y? := some 5 } = .error .typeError ∧
    presentFields ({ type? := some ("circle"), x? := some 5, y? := some 5 } : FigDict) ≠
      requiredFields FigTag.circle :=
  ⟨(c6_exact_params [] (PyVal.str ("#FFFFFF"))
      { type? := some ("circle"), x? := some 5, y? := some 5 } ("circle") FigTag.circle
      (PyVal.str ("#FFFFFF")) (by simp) (by decide) (by decide) (by decide)).mpr
    (by decide),
   by decide⟩

/-- C7: a `Square` issues exactly the drawing-surface call of the
`Rectangle` with `height = width = size`, hence identical pixel effects on
any surface under any coverage behavior of the external rasterizer. -/
theorem c7_square_rect :
    ∀ (x y size : Int) (c : PyVal),
      Shape.draw (Square_init x y size c) = Shape.draw (Rectangle_init x y size size c) ∧
      ∀ (cov : DrawCall → Int × Int → Bool) (surf : Int × Int → PyVal) (p : Int × Int),
        applyCall cov surf (Shape.draw (Square_init x y size c)) p =
          applyCall cov surf (Shape.draw (Rectangle_init x y size size c)) p := by
  intro x y size c
  exact ⟨rfl, fun cov surf p => rfl⟩

/-- C8 counterexample: at width `-1` the corners issued by
`Rectangle.draw` (Python `//`, floor division) differ from the claim's
truncating-division corners; moreover this odd width has its two edges
equidistant from the center, against the claimed asymmetry. -/
theorem c8_counterexample :
    Shape.draw (Rectangle_init 0 0 1 (-1) (PyVal.str ("#000000"))) ≠
      rectClaimedCall 0 0 1 (-1) (PyVal.str ("#000000")) := by
  decide

/-- C8 (amended): `Rectangle.draw` issues the filled-rectangle call with
corners `(x - w//2, y - h//2)` and `(x + w//2, y + h//2)` where `//` is
Python floor division (`Int.fdiv`, equal to truncating division only for
nonnegative operands); the two edges are equidistant from the center in
each axis (the truncation loss is between requested size and covered
extent, not between the two sides). -/
theorem c8_rect_draw :
    ∀ (x y h w : Int) (c : PyVal),
      Shape.draw (Rectangle_init x y h w c) =
        DrawCall.rectangle (x - Int.fdiv w 2, y - Int.fdiv h 2,
                            x + Int.fdiv w 2, y + Int.fdiv h 2) c ∧
      x - (x - Int.fdiv w 2) = (x + Int.fdiv w 2) - x ∧
      y - (y - Int.fdiv h 2) = (y + Int.fdiv h 2) - y := by
  intro x y h w c
  refine ⟨rfl, by ring, by ring⟩

/-- C9: the figure list is parsed element by element in input order (the
i-th parsed pair comes from the i-th figure), the driver emits the drawing
calls in exactly that list order, and sequential application of the calls
is last-writer-wins: the final color of a pixel covered by a call and by
no later call is that call's fill. -/
theorem c9_order_lastwins :
    (∀ (pal : List (String × PyVal)) (fg : PyVal) (figs : List FigDict)
        (pairs : List (Shape × FigDict)),
        exceptMapM (parse_figure pal fg) figs = .ok pairs →
        pairs.length = figs.length ∧
        ∀ (i : Nat) (d : FigDict), figs.get? i = some d →
          ∃ pr, pairs.get? i = some pr ∧ parse_figure pal fg d = .ok pr) ∧
    (∀ (sc : Scene) (res : ParseResult), parseFile sc = .ok res →
        runMain sc = .ok (res.shapes.map Shape.draw)) ∧
    (∀ (cov : DrawCall → Int × Int → Bool) (surf : Int × Int → PyVal)
        (pre post : List DrawCall) (c : DrawCall) (p : Int × Int),
        cov c p = true → (∀ c2 ∈ post, cov c2 p = false) →
        renderAll cov surf (pre ++ c :: post) p = DrawCall.fill c) := by
  refine ⟨?_, ?_, ?_⟩
  · intro pal fg figs pairs hm
    exact ⟨exceptMapM_length hm, fun i d hd => exceptMapM_get? hm i hd⟩
  · intro sc res h
    exact runMain_of_parseFile h
  · intro cov surf pre post c p hcov hpost
    rw [renderAll_append]
    show renderAll cov (applyCall cov (renderAll cov surf pre) c) post p = DrawCall.fill c
    rw [renderAll_untouched hpost]
    simp [applyCall, hcov]

theorem c9_witness :
    renderAll covAll blackSurf
      [DrawCall.point (1, 1) (PyVal.str ("#FF0000")),
       DrawCall.point (1, 1) (PyVal.str ("#00FF00"))] (1, 1) =
      DrawCall.fill (DrawCall.point (1, 1) (PyVal.str ("#00FF00"))) := by
  have h := c9_order_lastwins.2.2 covAll blackSurf
    [DrawCall.point (1, 1) (PyVal.str ("#FF0000"))] []
    (DrawCall.point (1, 1) (PyVal.str ("#00FF00"))) (1, 1) rfl (by simp)
  simpa using h

/-- C10: for any successful parse, the parser's outputs are the mutated
input data: each figure dictionary has lost its `type` key and had its
`color` entry overwritten with the resolved color (so it differs from the
raw dictionary), and the screen mapping's `bg_color` and `fg_color` hold
the resolved values of the raw tokens. -/
theorem c10_mutation :
    ∀ (sc : Scene) (res : ParseResult) (i : Nat) (d0 : FigDict) (c0 : PyVal),
      parseFile sc = .ok res →
      sc.figures.get? i = some d0 →
      resolve_color res.color_palette
        (Option.getD d0.color? res.screen_parameters.fg_color) = .ok c0 →
      parsePaletteVals sc.palette = .ok res.color_palette ∧
      resolve_color res.color_palette sc.screen.bg_color =
        .ok res.screen_parameters.bg_color ∧
      resolve_color res.color_palette sc.screen.fg_color =
        .ok res.screen_parameters.fg_color ∧
      d0.type?.isSome = true ∧
      res.postFigures.get? i =
        some { d0 with type? := Option.none, color? := some c0 } ∧
      { d0 with type? := Option.none, color? := some c0 } ≠ d0 := by
  intro sc res i d0 c0 hok hgd hc0
  rcases parseFile_ok_inv hok with ⟨pairs, hp, hb, hf, hwid, hhei, hm, hsh, hpost⟩
  rcases exceptMapM_get? hm i hgd with ⟨pr, hpr, hpf⟩
  rcases pr with ⟨sh, d2⟩
  rcases parse_figure_ok_inv hpf with ⟨t, tag, c, ht, hc, hk, hcon, hd2⟩
  rw [hc0] at hc
  injection hc with hc
  subst hc
  refine ⟨hp, hb, hf, ?_, ?_, ?_⟩
  · rw [ht]
    rfl
  · rw [hpost, List.get?_map, hpr]
    simp [hd2]
  · intro heq
    have h2 := congrArg FigDict.type? heq
    simp [ht] at h2

theorem c10_witness :
    parsePaletteVals sceneW.palette = .ok resW.color_palette ∧
    resolve_color resW.color_palette sceneW.screen.bg_color =
      .ok resW.screen_parameters.bg_color ∧
    resolve_color resW.color_palette sceneW.screen.fg_color =
      .ok resW.screen_parameters.fg_color ∧
    figW.type?.isSome = true ∧
    resW.postFigures.get? 0 =
      some { figW with type? := Option.none, color? := some (PyVal.str ("#FFFFFF")) } ∧
    { figW with type? := Option.none, color? := some (PyVal.str ("#FFFFFF")) } ≠ figW :=
  c10_mutation sceneW resW 0 figW (PyVal.str ("#FFFFFF"))
    (by decide) (by decide) (by decide)
